import Mathlib

/-
Shallow embedding of `src/main.py` of the place2dxf service: a Flask app that
geocodes a place name, builds a buffered bounding box, fetches building and
road geometry from remote sources (with a primary/fallback policy for
buildings), and writes a DXF drawing with "BLDG" and "ROAD" layers.

External effects (HTTP requests, Python `float` parsing, the pyproj/geopandas
coordinate transforms, the temp directory) are modelled as oracles in an `Env`
record; the handler returns an `Outcome` carrying the HTTP result (or the
uncaught Python exception), the ordered trace of outbound calls, and the list
of file writes. Coordinates are rationals.
-/

namespace Place2Dxf

/-- A Python exception, identified by its class name and message. -/
structure PyErr where
  kind : String
  msg : String
deriving DecidableEq, Repr

/-- A geographic / projected bounding box, in the tuple order the code uses:
`(minx, miny, maxx, maxy)` — i.e. `(minLon, minLat, maxLon, maxLat)` in
EPSG:4326. -/
structure BBox where
  minx : Rat
  miny : Rat
  maxx : Rat
  maxy : Rat
deriving DecidableEq, Repr

/-- Python whitespace characters stripped by `str.strip()` (ASCII subset). -/
def isPyWs (c : Char) : Bool :=
  c = ' ' || c = '\t' || c = '\n' || c = '\x0d' || c = '\x0b' || c = '\x0c'

/-- Model of Python `str.strip()`: drop leading and trailing whitespace. -/
def pyStrip (s : String) : String :=
  String.mk (((s.toList.dropWhile isPyWs).reverse.dropWhile isPyWs).reverse)

/-- Model of Python `str.replace(' ', '_')`: a single-character replacement. -/
def pyReplaceSpace (s : String) : String :=
  String.mk (s.toList.map (fun c => if c = ' ' then '_' else c))

/-- A shapely geometry as the DXF emission loop sees it (line 101–103 of
`main.py` dispatches on `isinstance(g, Polygon)` / `isinstance(g, MultiPolygon)`).
A polygon is its exterior ring plus a list of interior rings; a multipolygon is
a list of such polygons. The remaining constructors are geometry kinds that
match neither `isinstance` check. -/
inductive Geometry where
  | polygon (exterior : List (Rat × Rat)) (interiors : List (List (Rat × Rat)))
  | multiPolygon (parts : List (List (Rat × Rat) × List (List (Rat × Rat))))
  | lineString (coords : List (Rat × Rat))
  | point (p : Rat × Rat)
  | geometryCollection (n : Nat)
  | empty

/-- One DXF `LWPOLYLINE` entity: its layer attribute and its vertex list. -/
structure DxfEntity where
  layer : String
  points : List (Rat × Rat)
deriving DecidableEq, Repr

/-- Lines 100–103 of `main.py`: for each building geometry, `add_poly` the
polygon itself (its `exterior.coords`) if it is a `Polygon`, or each part of a
`MultiPolygon`; any other geometry kind matches no branch and is skipped. -/
def emitBuildings (gs : List Geometry) : List DxfEntity :=
  gs.flatMap fun g =>
    match g with
    | .polygon ext _ => [⟨"BLDG", ext⟩]
    | .multiPolygon parts => parts.map (fun p => ⟨"BLDG", p.1⟩)
    | _ => []

/-- Lines 105–106 of `main.py`: one `LWPOLYLINE` on layer "ROAD" per road
line, with that line's coordinates. -/
def emitRoads (lines : List (List (Rat × Rat))) : List DxfEntity :=
  lines.map fun ln => ⟨"ROAD", ln⟩

/-- Whether the emission loop's `isinstance` dispatch accepts the geometry. -/
def isPolygonal (g : Geometry) : Bool :=
  match g with
  | .polygon _ _ => true
  | .multiPolygon _ => true
  | _ => false

/-- One outbound remote interaction of the pipeline. -/
inductive Call where
  | geocodeCall (place : String)
  | primaryCall (bbox : BBox)
  | fallbackCall (bbox : BBox)
  | roadsCall (bbox : BBox)
deriving DecidableEq, Repr

/-- `get_buildings` (lines 64–69): try the extract API; on any exception fall
back to the parquet scan, whose own outcome (value or exception) is returned
as is. The second component is the trace of building-source invocations. -/
def get_buildings (primary fallb : BBox → Except PyErr (List Geometry))
    (bbox : BBox) : Except PyErr (List Geometry) × List Call :=
  match primary bbox with
  | .ok gdf => (.ok gdf, [.primaryCall bbox])
  | .error _ => (fallb bbox, [.primaryCall bbox, .fallbackCall bbox])

/-- `geocode` (lines 22–29) applied to the outcome of the nominatim HTTP
request: a request/HTTP-status failure propagates; an empty result list makes
`r.json()[0]` raise `IndexError('list index out of range')`; otherwise the
first result's `(lat, lon)` pair is returned. -/
def geocode (resp : Except PyErr (List (Rat × Rat))) : Except PyErr (Rat × Rat) :=
  match resp with
  | .error e => .error e
  | .ok [] => .error ⟨"IndexError", "list index out of range"⟩
  | .ok (p :: _) => .ok p

/-- The square AOI handed to `shapely.box` on line 91:
`box(x-buf, y-buf, x+buf, y+buf)` around the projected point `(x, y)`. -/
def aoiSquare (x y buf : Rat) : BBox :=
  ⟨x - buf, y - buf, x + buf, y + buf⟩

/-- The exterior coordinate ring `shapely.box` produces for a bbox
(counter-clockwise, starting and closing at `(maxx, miny)`). -/
def boxCoords (b : BBox) : List (Rat × Rat) :=
  [(b.maxx, b.miny), (b.maxx, b.maxy), (b.minx, b.maxy), (b.minx, b.miny),
   (b.maxx, b.miny)]

/-- One step of the running min/max fold behind `total_bounds`. -/
def boundsStep (a : BBox) (q : Rat × Rat) : BBox :=
  ⟨min a.minx q.1, min a.miny q.2, max a.maxx q.1, max a.maxy q.2⟩

/-- geopandas `total_bounds`: `(minx, miny, maxx, maxy)` over all coordinates
of the series' geometries. -/
def total_bounds : List (Rat × Rat) → BBox
  | [] => ⟨0, 0, 0, 0⟩
  | p :: ps => ps.foldl boundsStep ⟨p.1, p.2, p.1, p.2⟩

/-- Lines 91–92: build the projected AOI square, reproject each of its
vertices to EPSG:4326 via the transform `T`, and take `total_bounds`. -/
def bbox4326 (T : Rat × Rat → Rat × Rat) (x y buf : Rat) : BBox :=
  total_bounds ((boxCoords (aoiSquare x y buf)).map T)

/-- Query parameters of a `/dwg` request (`request.args`). -/
structure Request where
  place : Option String
  buffer : Option String
deriving DecidableEq, Repr

/-- A response the handler returns itself: HTTP status plus the JSON object
body as a key/value list. -/
structure Response where
  status : Nat
  body : List (String × String)
deriving DecidableEq, Repr

/-- The oracles standing for everything outside the handler: remote HTTP
responses, Python `float` parsing, the pyproj transform (lon, lat) → (x, y),
the pointwise geopandas reprojection back to 4326, and the temp directory. -/
structure Env where
  geocodeResp : String → Except PyErr (List (Rat × Rat))
  parseFloat : String → Except PyErr Rat
  transform : Rat × Rat → Rat × Rat
  reproject : Rat × Rat → Rat × Rat
  primary : BBox → Except PyErr (List Geometry)
  fallb : BBox → Except PyErr (List Geometry)
  roadsResp : BBox → Except PyErr (List (List (Rat × Rat)))
  tmpdir : String

/-- What one `/dwg` request observably does: the handler's own result (`.ok`
a response it built, `.error` an exception that escapes it uncaught — Flask
then renders a generic 500 page), the ordered outbound calls, and the files
written (path and DXF entity list). -/
structure Outcome where
  result : Except PyErr Response
  calls : List Call
  writes : List (String × List DxfEntity)

/-- Line 87: `float(request.args.get("buffer", DEFAULT_BUFFER))`. An absent
parameter yields `float(250)`, which cannot fail; a present one goes through
`float(<string>)`, which raises `ValueError` on unparseable input (modelled by
the `parseFloat` oracle). -/
def effectiveBuffer (env : Env) (req : Request) : Except PyErr Rat :=
  match req.buffer with
  | none => .ok 250
  | some s => env.parseFloat s

/-- The `/dwg` handler `make_dxf` (lines 82–110), with every remote effect
delegated to `env` and logged in the call trace. The control flow mirrors the
source: place check → buffer parse → geocode → project + reproject bbox →
buildings (with fallback) → roads → emit DXF and save. -/
def make_dxf (env : Env) (req : Request) : Outcome :=
  let place := pyStrip ((req.place).getD "")
  if place = "" then
    ⟨.ok ⟨400, [("error", "missing ?place")]⟩, [], []⟩
  else
    match effectiveBuffer env req with
    | .error e => ⟨.error e, [], []⟩
    | .ok buf =>
      match geocode (env.geocodeResp place) with
      | .error e => ⟨.error e, [.geocodeCall place], []⟩
      | .ok (lat, lon) =>
        let xy := env.transform (lon, lat)
        let bbox := bbox4326 env.reproject xy.1 xy.2 buf
        match get_buildings env.primary env.fallb bbox with
        | (.error e, bcalls) => ⟨.error e, .geocodeCall place :: bcalls, []⟩
        | (.ok buildings, bcalls) =>
          match env.roadsResp bbox with
          | .error e =>
            ⟨.error e, .geocodeCall place :: (bcalls ++ [.roadsCall bbox]), []⟩
          | .ok roads =>
            let fname := pyReplaceSpace place ++ ".dxf"
            ⟨.ok ⟨200, [("status", "ok"), ("download_url", "/files/" ++ fname)]⟩,
             .geocodeCall place :: (bcalls ++ [.roadsCall bbox]),
             [(env.tmpdir ++ "/" ++ fname, emitBuildings buildings ++ emitRoads roads)]⟩

/-- The number of exterior rings of a geometry as the spec counts them: one
for a polygon (whatever its interior rings), one per constituent polygon of a
multipolygon, zero for every other geometry kind. -/
def exteriorRingCount : Geometry → Nat
  | .polygon _ _ => 1
  | .multiPolygon parts => parts.length
  | _ => 0

/-- A request environment in which every remote interaction succeeds:
geocoding returns one match, both building sources and the road query return
empty feature sets, and the two coordinate transforms are the identity. -/
def envAllOk : Env :=
  ⟨fun _ => .ok [(10, 20)], fun _ => .ok 1, fun p => p, fun p => p,
   fun _ => .ok [], fun _ => .ok [], fun _ => .ok [], "/tmp"⟩

/-- Building source that fails with an HTTP error on every bbox. -/
def srcHttpError : BBox → Except PyErr (List Geometry) :=
  fun _ => .error ⟨"HTTPError", "502 Bad Gateway"⟩

/-- Building source that returns an empty feature set on every bbox. -/
def srcEmptyOk : BBox → Except PyErr (List Geometry) :=
  fun _ => .ok []

/-- A sample bounding box for concrete instantiations. -/
def bboxSample : BBox := ⟨1, 2, 3, 4⟩

/-- Environment whose nominatim request fails with a connection error. -/
def envGeoDown : Env :=
  ⟨fun _ => .error ⟨"ConnectionError", "nominatim unreachable"⟩,
   fun _ => .ok 1, fun p => p, fun p => p,
   fun _ => .ok [], fun _ => .ok [], fun _ => .ok [], "/tmp"⟩

/-- Environment whose `float` oracle rejects its input, as Python `float`
does on a non-numeric string. -/
def envBadBuffer : Env :=
  ⟨fun _ => .ok [(10, 20)],
   fun _ => .error ⟨"ValueError", "could not convert string to float: abc"⟩,
   fun p => p, fun p => p,
   fun _ => .ok [], fun _ => .ok [], fun _ => .ok [], "/tmp"⟩

/-- Environment whose geocoder returns a result list with zero matches. -/
def envGeoEmpty : Env :=
  ⟨fun _ => .ok [], fun _ => .ok 1, fun p => p, fun p => p,
   fun _ => .ok [], fun _ => .ok [], fun _ => .ok [], "/tmp"⟩

/-- Environment whose `float` oracle parses every string to 0, as Python
`float("0")` does; geocoding hits (0, 0) and the transforms are the
identity. -/
def envZeroBuf : Env :=
  ⟨fun _ => .ok [(0, 0)], fun _ => .ok 0, fun p => p, fun p => p,
   fun _ => .ok [], fun _ => .ok [], fun _ => .ok [], "/tmp"⟩

/-- Environment in which the primary building source always raises and the
fallback succeeds with an empty feature set, while everything else works:
the request is served through the fallback path. -/
def envFallbackOnly : Env :=
  ⟨fun _ => .ok [(10, 20)], fun _ => .ok 1, fun p => p, fun p => p,
   srcHttpError, srcEmptyOk, fun _ => .ok [], "/tmp"⟩

lemma emitBuildings_nil : emitBuildings [] = [] := rfl

lemma emitBuildings_cons (g : Geometry) (gs : List Geometry) :
    emitBuildings (g :: gs) = emitBuildings [g] ++ emitBuildings gs := by
  simp [emitBuildings]

lemma emitBuildings_append (xs ys : List Geometry) :
    emitBuildings (xs ++ ys) = emitBuildings xs ++ emitBuildings ys := by
  simp [emitBuildings]

lemma emitBuildings_single_length (g : Geometry) :
    (emitBuildings [g]).length = exteriorRingCount g := by
  cases g <;> simp [emitBuildings, exteriorRingCount]

lemma emitBuildings_length (gs : List Geometry) :
    (emitBuildings gs).length = (gs.map exteriorRingCount).sum := by
  induction gs with
  | nil => rfl
  | cons g gs ih =>
    rw [emitBuildings_cons]
    simp [ih, emitBuildings_single_length g]

lemma emitBuildings_layers (gs : List Geometry) :
    (emitBuildings gs).all (fun ent => ent.layer == "BLDG") := by
  induction gs with
  | nil => rfl
  | cons g gs ih =>
    rw [emitBuildings_cons, List.all_append, Bool.and_eq_true]
    refine And.intro ?_ ih
    cases g <;> simp +contextual [emitBuildings, List.all_eq_true]
    intro x a b _ hx
    rw [← hx]

lemma pyStrip_eq_empty_of_all_ws (s : String) (h : s.toList.all isPyWs) :
    pyStrip s = "" := by
  unfold pyStrip
  have h1 : s.toList.dropWhile isPyWs = [] := by
    rw [List.dropWhile_eq_nil_iff]
    intro x hx
    exact List.all_eq_true.mp h x hx
  rw [h1]
  rfl

/-- C1: `get_buildings` always attempts the primary extract-API source first;
if the primary raises any exception, the fallback columnar-archive source is
invoked exactly once with the same bounding box and its result (including an
empty result set, or its own exception, which thus propagates) is returned
without retrying the primary. -/
theorem get_buildings_fallback_policy
    (primary fallb : BBox → Except PyErr (List Geometry)) (bbox : BBox) :
    (get_buildings primary fallb bbox).2.head? = some (.primaryCall bbox) ∧
    (∀ gdf, primary bbox = .ok gdf →
      get_buildings primary fallb bbox = (.ok gdf, [.primaryCall bbox])) ∧
    (∀ e, primary bbox = .error e →
      get_buildings primary fallb bbox =
        (fallb bbox, [.primaryCall bbox, .fallbackCall bbox])) := by
  unfold get_buildings
  cases h : primary bbox <;> simp [h]

/-- Instantiation of the fallback policy: a failing primary and an
empty-result fallback on a concrete bbox give the fallback's empty result
after exactly one call to each source. -/
theorem get_buildings_fallback_policy_witness :
    get_buildings srcHttpError srcEmptyOk bboxSample =
      (.ok [], [.primaryCall bboxSample, .fallbackCall bboxSample]) := by
  have h := (get_buildings_fallback_policy srcHttpError srcEmptyOk bboxSample).2.2
    ⟨"HTTPError", "502 Bad Gateway"⟩ rfl
  simpa [srcEmptyOk] using h

/-- C2: a `/dwg` request whose place parameter is absent, empty, or
whitespace-only gets the 400 response `{error: "missing ?place"}`, with no
outbound call and no file written. -/
theorem dwg_missing_place (env : Env) (req : Request)
    (h : req.place = none ∨ ∃ p, req.place = some p ∧ p.toList.all isPyWs) :
    make_dxf env req = ⟨.ok ⟨400, [("error", "missing ?place")]⟩, [], []⟩ := by
  have hp : pyStrip ((req.place).getD "") = "" := by
    rcases h with h | ⟨p, hps, hall⟩
    · rw [h]; rfl
    · rw [hps]
      exact pyStrip_eq_empty_of_all_ws p hall
  unfold make_dxf
  simp [hp]

/-- Instantiation: a whitespace-only place parameter in an all-success
environment still yields the 400 response with empty call and write traces. -/
theorem dwg_missing_place_witness :
    make_dxf envAllOk ⟨some "  ", none⟩ =
      ⟨.ok ⟨400, [("error", "missing ?place")]⟩, [], []⟩ :=
  dwg_missing_place envAllOk ⟨some "  ", none⟩
    (Or.inr ⟨"  ", rfl, by decide⟩)

/-- C3: the DXF emitter adds exactly one "BLDG" polyline per exterior ring —
a polygon with interior rings yields exactly one polyline, its exterior ring
only, and a multipolygon with N parts yields exactly N — and one "ROAD"
polyline per road line. -/
theorem emit_one_polyline_per_ring (gs : List Geometry)
    (ext : List (Rat × Rat)) (holes : List (List (Rat × Rat)))
    (parts : List (List (Rat × Rat) × List (List (Rat × Rat))))
    (lines : List (List (Rat × Rat))) :
    (emitBuildings gs).length = (gs.map exteriorRingCount).sum ∧
    (emitBuildings gs).all (fun ent => ent.layer == "BLDG") ∧
    emitBuildings (.polygon ext holes :: gs) = ⟨"BLDG", ext⟩ :: emitBuildings gs ∧
    (emitBuildings [.multiPolygon parts]).length = parts.length ∧
    (emitRoads lines).length = lines.length ∧
    (emitRoads lines).all (fun ent => ent.layer == "ROAD") := by
  refine ⟨emitBuildings_length gs, emitBuildings_layers gs, ?_, ?_, ?_, ?_⟩
  · rw [emitBuildings_cons]
    rfl
  · simp [emitBuildings]
  · simp [emitRoads]
  · simp [emitRoads, List.all_eq_true]

/-- C9: a building feature whose geometry is neither a polygon nor a
multipolygon (a line, a point, a collection, an empty geometry) is silently
skipped by the emitter: it contributes no entity on any layer and removing it
from the collection leaves the output unchanged. -/
theorem nonpolygonal_features_skipped (xs ys : List Geometry) (g : Geometry)
    (h : isPolygonal g = false) :
    emitBuildings [g] = [] ∧
    emitBuildings (xs ++ g :: ys) = emitBuildings (xs ++ ys) := by
  have h1 : emitBuildings [g] = [] := by
    cases g <;> simp_all [isPolygonal, emitBuildings]
  refine ⟨h1, ?_⟩
  rw [emitBuildings_append, emitBuildings_append, emitBuildings_cons, h1,
    List.nil_append]

/-- Instantiation: a point geometry between two polygons adds nothing. -/
theorem nonpolygonal_features_skipped_witness :
    emitBuildings [Geometry.point (5, 6)] = [] ∧
    emitBuildings ([Geometry.polygon [(0, 0)] []] ++ Geometry.point (5, 6) ::
        [Geometry.polygon [(1, 1)] []]) =
      emitBuildings ([Geometry.polygon [(0, 0)] []] ++
        [Geometry.polygon [(1, 1)] []]) :=
  nonpolygonal_features_skipped [Geometry.polygon [(0, 0)] []]
    [Geometry.polygon [(1, 1)] []] (Geometry.point (5, 6)) rfl

lemma foldl_boundsStep_mono (ps : List (Rat × Rat)) (a : BBox) :
    (ps.foldl boundsStep a).minx ≤ a.minx ∧ a.maxx ≤ (ps.foldl boundsStep a).maxx ∧
    (ps.foldl boundsStep a).miny ≤ a.miny ∧ a.maxy ≤ (ps.foldl boundsStep a).maxy := by
  induction ps generalizing a with
  | nil => simp
  | cons q ps ih =>
    simp only [List.foldl_cons]
    have h := ih (boundsStep a q)
    unfold boundsStep at h
    refine ⟨le_trans h.1 (min_le_left _ _), le_trans (le_max_left _ _) h.2.1,
      le_trans h.2.2.1 (min_le_left _ _), le_trans (le_max_left _ _) h.2.2.2⟩

lemma foldl_boundsStep_mem (ps : List (Rat × Rat)) (q : Rat × Rat) :
    ∀ a : BBox, q ∈ ps →
      (ps.foldl boundsStep a).minx ≤ q.1 ∧ q.1 ≤ (ps.foldl boundsStep a).maxx ∧
      (ps.foldl boundsStep a).miny ≤ q.2 ∧ q.2 ≤ (ps.foldl boundsStep a).maxy := by
  induction ps with
  | nil => intro a hq; cases hq
  | cons p ps ih =>
    intro a hq
    simp only [List.foldl_cons]
    rcases List.mem_cons.mp hq with h | h
    · subst h
      have hm := foldl_boundsStep_mono ps (boundsStep a q)
      unfold boundsStep at hm
      refine ⟨le_trans hm.1 (min_le_right _ _), le_trans (le_max_right _ _) hm.2.1,
        le_trans hm.2.2.1 (min_le_right _ _), le_trans (le_max_right _ _) hm.2.2.2⟩
    · exact ih (boundsStep a p) h

lemma total_bounds_order (p : Rat × Rat) (ps : List (Rat × Rat)) :
    (total_bounds (p :: ps)).minx ≤ (total_bounds (p :: ps)).maxx ∧
    (total_bounds (p :: ps)).miny ≤ (total_bounds (p :: ps)).maxy := by
  have h := foldl_boundsStep_mono ps ⟨p.1, p.2, p.1, p.2⟩
  unfold total_bounds
  exact ⟨le_trans h.1 h.2.1, le_trans h.2.2.1 h.2.2.2⟩

lemma total_bounds_mem (p : Rat × Rat) (ps : List (Rat × Rat)) (q : Rat × Rat)
    (hq : q ∈ p :: ps) :
    (total_bounds (p :: ps)).minx ≤ q.1 ∧ q.1 ≤ (total_bounds (p :: ps)).maxx ∧
    (total_bounds (p :: ps)).miny ≤ q.2 ∧ q.2 ≤ (total_bounds (p :: ps)).maxy := by
  unfold total_bounds
  rcases List.mem_cons.mp hq with h | h
  · subst h
    exact foldl_boundsStep_mono ps ⟨q.1, q.2, q.1, q.2⟩
  · exact foldl_boundsStep_mem ps q ⟨p.1, p.2, p.1, p.2⟩ h

/-- C4: the AOI is the axis-aligned square of side 2×buffer centered on the
projected point (`shapely.box(x-buf, y-buf, x+buf, y+buf)`); its min/max hull
contains the projected point; and `bbox4326` reprojects the square's vertices
and returns their bounding extent in the order (minLon, minLat, maxLon,
maxLat) — the first component is ≤ the third, the second ≤ the fourth, and
every reprojected vertex lies within the returned box. -/
theorem aoi_square_reprojected_bbox (x y buf : Rat) (T : Rat × Rat → Rat × Rat) :
    (aoiSquare x y buf).maxx - (aoiSquare x y buf).minx = 2 * buf ∧
    (aoiSquare x y buf).maxy - (aoiSquare x y buf).miny = 2 * buf ∧
    (aoiSquare x y buf).minx + (aoiSquare x y buf).maxx = 2 * x ∧
    (aoiSquare x y buf).miny + (aoiSquare x y buf).maxy = 2 * y ∧
    min (aoiSquare x y buf).minx (aoiSquare x y buf).maxx ≤ x ∧
    x ≤ max (aoiSquare x y buf).minx (aoiSquare x y buf).maxx ∧
    min (aoiSquare x y buf).miny (aoiSquare x y buf).maxy ≤ y ∧
    y ≤ max (aoiSquare x y buf).miny (aoiSquare x y buf).maxy ∧
    (bbox4326 T x y buf).minx ≤ (bbox4326 T x y buf).maxx ∧
    (bbox4326 T x y buf).miny ≤ (bbox4326 T x y buf).maxy ∧
    ∀ q ∈ (boxCoords (aoiSquare x y buf)).map T,
      (bbox4326 T x y buf).minx ≤ q.1 ∧ q.1 ≤ (bbox4326 T x y buf).maxx ∧
      (bbox4326 T x y buf).miny ≤ q.2 ∧ q.2 ≤ (bbox4326 T x y buf).maxy := by
  have hmin : ∀ a b c : Rat, a ≤ c ∨ b ≤ c → min a b ≤ c := by
    intro a b c h
    rcases h with h | h
    · exact le_trans (min_le_left _ _) h
    · exact le_trans (min_le_right _ _) h
  have hmax : ∀ a b c : Rat, c ≤ a ∨ c ≤ b → c ≤ max a b := by
    intro a b c h
    rcases h with h | h
    · exact le_trans h (le_max_left _ _)
    · exact le_trans h (le_max_right _ _)
  have hbuf := le_total 0 buf
  refine ⟨by simp only [aoiSquare]; ring, by simp only [aoiSquare]; ring,
    by simp only [aoiSquare]; ring, by simp only [aoiSquare]; ring,
    ?_, ?_, ?_, ?_, ?_, ?_, ?_⟩
  · simp only [aoiSquare]
    rcases hbuf with h | h
    · exact hmin _ _ _ (Or.inl (by linarith))
    · exact hmin _ _ _ (Or.inr (by linarith))
  · simp only [aoiSquare]
    rcases hbuf with h | h
    · exact hmax _ _ _ (Or.inr (by linarith))
    · exact hmax _ _ _ (Or.inl (by linarith))
  · simp only [aoiSquare]
    rcases hbuf with h | h
    · exact hmin _ _ _ (Or.inl (by linarith))
    · exact hmin _ _ _ (Or.inr (by linarith))
  · simp only [aoiSquare]
    rcases hbuf with h | h
    · exact hmax _ _ _ (Or.inr (by linarith))
    · exact hmax _ _ _ (Or.inl (by linarith))
  · exact (total_bounds_order _ _).1
  · exact (total_bounds_order _ _).2
  · intro q hq
    exact total_bounds_mem _ _ q hq

/-- Instantiation at the identity transform, point (0, 0) and buffer 1: the
corner (1, -1) of the square lies within the returned bounding box. -/
theorem aoi_square_reprojected_bbox_witness :
    (bbox4326 (fun p => p) 0 0 1).minx ≤ (1 : Rat) ∧
    (1 : Rat) ≤ (bbox4326 (fun p => p) 0 0 1).maxx ∧
    (bbox4326 (fun p => p) 0 0 1).miny ≤ (-1 : Rat) ∧
    (-1 : Rat) ≤ (bbox4326 (fun p => p) 0 0 1).maxy := by
  have h := (aoi_square_reprojected_bbox 0 0 1 (fun p => p)).2.2.2.2.2.2.2.2.2.2
  refine h ((1 : Rat), (-1 : Rat)) ?_
  simp only [boxCoords, aoiSquare, List.map, List.mem_cons]
  norm_num

lemma make_dxf_shape (env : Env) (req : Request) :
    (make_dxf env req).writes = [] ∨
      ∃ r, (make_dxf env req).result = .ok r ∧ r.status = 200 := by
  simp only [make_dxf]
  repeat' split
  all_goals first
  | (left; rfl)
  | (right; exact ⟨_, rfl, rfl⟩)

lemma make_dxf_status (env : Env) (req : Request) :
    ∀ r, (make_dxf env req).result = .ok r → r.status = 200 ∨ r.status = 400 := by
  intro r
  simp only [make_dxf]
  repeat' split
  all_goals intro h
  all_goals cases h
  all_goals simp

lemma make_dxf_geocode_error (env : Env) (req : Request) (b : Rat) (e : PyErr)
    (hp : pyStrip ((req.place).getD "") ≠ "")
    (hb : effectiveBuffer env req = .ok b)
    (hg : geocode (env.geocodeResp (pyStrip ((req.place).getD ""))) = .error e) :
    make_dxf env req = ⟨.error e, [.geocodeCall (pyStrip ((req.place).getD ""))], []⟩ := by
  simp only [make_dxf, if_neg hp, hb, hg]

/-- C10: a request with a non-empty place and an unparseable buffer parameter
raises inside `float(...)` before the geocoder runs: the exception escapes
the handler (yielding the framework's server error rather than a 400), and no
outbound call and no file write happen. -/
theorem bad_buffer_raises_before_geocode (env : Env) (req : Request)
    (s : String) (e : PyErr)
    (hp : pyStrip ((req.place).getD "") ≠ "")
    (hbuf : req.buffer = some s)
    (hparse : env.parseFloat s = .error e) :
    make_dxf env req = ⟨.error e, [], []⟩ := by
  have hb : effectiveBuffer env req = .error e := by
    simp only [effectiveBuffer, hbuf, hparse]
  simp only [make_dxf, if_neg hp, hb]

/-- Instantiation: place "Lucknow" with buffer "abc" fails with the
`ValueError` from `float`, making no call and writing nothing. -/
theorem bad_buffer_raises_before_geocode_witness :
    make_dxf envBadBuffer ⟨some "Lucknow", some "abc"⟩ =
      ⟨.error ⟨"ValueError", "could not convert string to float: abc"⟩, [], []⟩ :=
  bad_buffer_raises_before_geocode envBadBuffer ⟨some "Lucknow", some "abc"⟩
    "abc" ⟨"ValueError", "could not convert string to float: abc"⟩
    (by decide) rfl rfl

/-- C8: when the geocoder's result list has zero matches, `r.json()[0]`
raises `IndexError('list index out of range')`; the exception escapes the
handler (the framework renders a server error), after only the geocoding
call, with no file written — and on any pipeline failure whatsoever the
file-writing step is never reached. -/
theorem geocoder_zero_matches_no_file (env : Env) (req : Request) :
    (∀ e, (make_dxf env req).result = .error e → (make_dxf env req).writes = []) ∧
    (∀ b, pyStrip ((req.place).getD "") ≠ "" →
      effectiveBuffer env req = .ok b →
      env.geocodeResp (pyStrip ((req.place).getD "")) = .ok [] →
      make_dxf env req =
        ⟨.error ⟨"IndexError", "list index out of range"⟩,
         [.geocodeCall (pyStrip ((req.place).getD ""))], []⟩) := by
  constructor
  · intro e he
    rcases make_dxf_shape env req with h | ⟨r, hr, _⟩
    · exact h
    · rw [he] at hr
      cases hr
  · intro b hp hb hresp
    have hg : geocode (env.geocodeResp (pyStrip ((req.place).getD ""))) =
        .error ⟨"IndexError", "list index out of range"⟩ := by
      rw [hresp]
      rfl
    exact make_dxf_geocode_error env req b _ hp hb hg

/-- Instantiation: an empty geocoder result list for place "Nowhere" yields
the uncaught `IndexError` with no write. -/
theorem geocoder_zero_matches_no_file_witness :
    make_dxf envGeoEmpty ⟨some "Nowhere", none⟩ =
      ⟨.error ⟨"IndexError", "list index out of range"⟩,
       [.geocodeCall "Nowhere"], []⟩ :=
  (geocoder_zero_matches_no_file envGeoEmpty ⟨some "Nowhere", none⟩).2 250
    (by decide) rfl rfl

/-- C5 counterexample: with the nominatim request failing with
`ConnectionError("nominatim unreachable")` on a valid place, the handler's
result is the uncaught exception itself — it is not a 500 response with the
JSON body `{error: "<message>"}` (the handler has no try/except; Flask's
default conversion of an uncaught exception is a generic error page, not this
JSON object). -/
theorem pipeline_failure_500_json_counterexample :
    (make_dxf envGeoDown ⟨some "Lucknow", none⟩).result =
      .error ⟨"ConnectionError", "nominatim unreachable"⟩ ∧
    (make_dxf envGeoDown ⟨some "Lucknow", none⟩).result ≠
      .ok ⟨500, [("error", "nominatim unreachable")]⟩ := by
  have h : (make_dxf envGeoDown ⟨some "Lucknow", none⟩).result =
      .error ⟨"ConnectionError", "nominatim unreachable"⟩ := by
    have := make_dxf_geocode_error envGeoDown ⟨some "Lucknow", none⟩ 250
      ⟨"ConnectionError", "nominatim unreachable"⟩ (by decide) rfl rfl
    rw [this]
  refine ⟨h, ?_⟩
  rw [h]
  simp

/-- C5 amended: the handler catches nothing. Any response it produces itself
has status 200 or 400, never 500; an exception from any pipeline stage
escapes unchanged (shown here for the geocoding stage, for a failing
building fallback, and for a failing road fetch), and the framework — not
the handler — then renders a generic 500 page without the underlying message
in a JSON body. -/
theorem pipeline_failures_propagate_uncaught (env : Env) (req : Request) :
    (∀ r, (make_dxf env req).result = .ok r → r.status = 200 ∨ r.status = 400) ∧
    (∀ b e, pyStrip ((req.place).getD "") ≠ "" →
      effectiveBuffer env req = .ok b →
      geocode (env.geocodeResp (pyStrip ((req.place).getD ""))) = .error e →
      (make_dxf env req).result = .error e) ∧
    (∀ b la lo e0 e, pyStrip ((req.place).getD "") ≠ "" →
      effectiveBuffer env req = .ok b →
      geocode (env.geocodeResp (pyStrip ((req.place).getD ""))) = .ok (la, lo) →
      (∀ bb, env.primary bb = .error e0) → (∀ bb, env.fallb bb = .error e) →
      (make_dxf env req).result = .error e) ∧
    (∀ b la lo gs e, pyStrip ((req.place).getD "") ≠ "" →
      effectiveBuffer env req = .ok b →
      geocode (env.geocodeResp (pyStrip ((req.place).getD ""))) = .ok (la, lo) →
      (∀ bb, env.primary bb = .ok gs) → (∀ bb, env.roadsResp bb = .error e) →
      (make_dxf env req).result = .error e) := by
  refine ⟨make_dxf_status env req, ?_, ?_, ?_⟩
  · intro b e hp hb hg
    rw [make_dxf_geocode_error env req b e hp hb hg]
  · intro b la lo e0 e hp hb hg hprim hfall
    simp only [make_dxf, if_neg hp, hb, hg, get_buildings, hprim, hfall]
  · intro b la lo gs e hp hb hg hprim hroads
    simp only [make_dxf, if_neg hp, hb, hg, get_buildings, hprim, hroads]

/-- Instantiation of the amended C5: the successful response has status 200
(never 500), and a geocoding connection failure escapes as the exception
itself. -/
theorem pipeline_failures_propagate_uncaught_witness :
    ((200 : Nat) = 200 ∨ (200 : Nat) = 400) ∧
    (make_dxf envGeoDown ⟨some "Delhi", none⟩).result =
      .error ⟨"ConnectionError", "nominatim unreachable"⟩ := by
  constructor
  · exact (pipeline_failures_propagate_uncaught envAllOk ⟨some "Delhi", none⟩).1
      ⟨200, [("status", "ok"), ("download_url", "/files/Delhi.dxf")]⟩ rfl
  · exact (pipeline_failures_propagate_uncaught envGeoDown ⟨some "Delhi", none⟩).2.1
      250 ⟨"ConnectionError", "nominatim unreachable"⟩ (by decide) rfl rfl

/-- C6 counterexample: the handler performs no validation of the buffer
parameter. A request with `buffer=0` (Python `float("0") = 0.0`) is processed
end to end with buffer 0, which is not strictly positive: the AOI square is
degenerate, and the degenerate bbox is what both geometry sources are called
with. -/
theorem buffer_positive_counterexample :
    effectiveBuffer envZeroBuf ⟨some "P", some "0"⟩ = .ok 0 ∧
    ¬ (0 : Rat) < 0 ∧
    (make_dxf envZeroBuf ⟨some "P", some "0"⟩).calls =
      [.geocodeCall "P", .primaryCall ⟨0, 0, 0, 0⟩, .roadsCall ⟨0, 0, 0, 0⟩] ∧
    (aoiSquare 0 0 0).minx = (aoiSquare 0 0 0).maxx := by
  refine ⟨rfl, by norm_num, ?_, by norm_num [aoiSquare]⟩
  have hp : pyStrip (((some "P" : Option String)).getD "") ≠ "" := by decide
  have hbuf : effectiveBuffer envZeroBuf ⟨some "P", some "0"⟩ = .ok 0 := rfl
  have hgeo : geocode (envZeroBuf.geocodeResp
      (pyStrip (((some "P" : Option String)).getD ""))) = .ok (0, 0) := rfl
  have hbb : bbox4326 envZeroBuf.reproject 0 0 0 = ⟨0, 0, 0, 0⟩ := by
    simp [bbox4326, aoiSquare, boxCoords, total_bounds, boundsStep, envZeroBuf]
  simp only [make_dxf, if_neg hp, hbuf, hgeo, get_buildings]
  simp [envZeroBuf, hbb]
  exact ⟨rfl, by simpa [envZeroBuf] using hbb⟩

/-- C6 amended: the default buffer (used whenever the buffer parameter is
absent) is 250, which is strictly positive and yields a non-degenerate
axis-aligned AOI square; but a client-supplied buffer is used exactly as
parsed, without any positivity validation. -/
theorem default_buffer_positive (env : Env) (req : Request)
    (h : req.buffer = none) :
    effectiveBuffer env req = .ok 250 ∧ (0 : Rat) < 250 ∧
    ∀ x y : Rat, (aoiSquare x y 250).minx < (aoiSquare x y 250).maxx ∧
      (aoiSquare x y 250).miny < (aoiSquare x y 250).maxy := by
  refine ⟨by simp [effectiveBuffer, h], by norm_num, ?_⟩
  intro x y
  simp only [aoiSquare]
  constructor <;> linarith

/-- Instantiation: a request without a buffer parameter gets buffer 250 and a
non-degenerate AOI at the origin. -/
theorem default_buffer_positive_witness :
    effectiveBuffer envAllOk ⟨some "Lucknow", none⟩ = .ok 250 ∧
    (0 : Rat) < 250 ∧
    (aoiSquare 0 0 250).minx < (aoiSquare 0 0 250).maxx := by
  have h := default_buffer_positive envAllOk ⟨some "Lucknow", none⟩ rfl
  exact ⟨h.1, h.2.1, (h.2.2 0 0).1⟩

/-- C7 counterexample: for the raw place parameter `" Lucknow"` the request
succeeds and the file written is `Lucknow.dxf` — derived from the *stripped*
place — whereas replacing each space of the parameter itself and appending
".dxf" would give `_Lucknow.dxf`, a different name. -/
theorem dxf_filename_counterexample :
    (make_dxf envAllOk ⟨some " Lucknow", none⟩).result =
      .ok ⟨200, [("status", "ok"), ("download_url", "/files/Lucknow.dxf")]⟩ ∧
    (make_dxf envAllOk ⟨some " Lucknow", none⟩).writes.map Prod.fst =
      ["/tmp/Lucknow.dxf"] ∧
    pyReplaceSpace " Lucknow" ++ ".dxf" = "_Lucknow.dxf" ∧
    ("_Lucknow.dxf" : String) ≠ "Lucknow.dxf" := by
  refine ⟨?_, ?_, rfl, by decide⟩
  · rfl
  · rfl

/-- C7 amended: every successful request — whether the buildings came from
the primary source or from the fallback after a primary failure — writes
exactly one DXF file, into the shared temp directory, named by replacing
each space of the *stripped* place string with an underscore and appending
".dxf", and the response is
`{status: "ok", download_url: "/files/<that name>"}`. The building-source
hypothesis constrains only the combined `get_buildings` result, so it covers
both paths. -/
theorem dxf_file_per_success (env : Env) (req : Request) (b la lo : Rat)
    (gs : List Geometry) (rs : List (List (Rat × Rat)))
    (hp : pyStrip ((req.place).getD "") ≠ "")
    (hb : effectiveBuffer env req = .ok b)
    (hg : geocode (env.geocodeResp (pyStrip ((req.place).getD ""))) = .ok (la, lo))
    (hbld : ∀ bb, (get_buildings env.primary env.fallb bb).1 = .ok gs)
    (hroads : ∀ bb, env.roadsResp bb = .ok rs) :
    (make_dxf env req).result =
      .ok ⟨200, [("status", "ok"), ("download_url",
        "/files/" ++ (pyReplaceSpace (pyStrip ((req.place).getD "")) ++ ".dxf"))]⟩ ∧
    (make_dxf env req).writes =
      [(env.tmpdir ++ "/" ++ (pyReplaceSpace (pyStrip ((req.place).getD "")) ++ ".dxf"),
        emitBuildings gs ++ emitRoads rs)] := by
  have hcs : ∀ bb, ∃ cs, get_buildings env.primary env.fallb bb = (.ok gs, cs) := by
    intro bb
    refine ⟨(get_buildings env.primary env.fallb bb).2, ?_⟩
    rw [← hbld bb]
  obtain ⟨cs, hpr⟩ := hcs (bbox4326 env.reproject
    (env.transform (lo, la)).1 (env.transform (lo, la)).2 b)
  constructor <;> simp only [make_dxf, if_neg hp, hb, hg, hpr, hroads]

/-- Instantiation on both building-source paths: place `" Lucknow"`
(stripping to "Lucknow") in the all-success environment writes exactly
`/tmp/Lucknow.dxf` and links to `/files/Lucknow.dxf`; place `"Delhi"` in the
environment whose primary source raises and whose fallback succeeds still
gets the one write `/tmp/Delhi.dxf` and the matching link. -/
theorem dxf_file_per_success_witness :
    ((make_dxf envAllOk ⟨some " Lucknow", none⟩).result =
        .ok ⟨200, [("status", "ok"), ("download_url", "/files/Lucknow.dxf")]⟩ ∧
      (make_dxf envAllOk ⟨some " Lucknow", none⟩).writes =
        [("/tmp/Lucknow.dxf", [])]) ∧
    ((make_dxf envFallbackOnly ⟨some "Delhi", none⟩).result =
        .ok ⟨200, [("status", "ok"), ("download_url", "/files/Delhi.dxf")]⟩ ∧
      (make_dxf envFallbackOnly ⟨some "Delhi", none⟩).writes =
        [("/tmp/Delhi.dxf", [])]) := by
  constructor
  · exact dxf_file_per_success envAllOk ⟨some " Lucknow", none⟩ 250 10 20 [] []
      (by decide) rfl rfl (fun _ => rfl) (fun _ => rfl)
  · exact dxf_file_per_success envFallbackOnly ⟨some "Delhi", none⟩ 250 10 20 [] []
      (by decide) rfl rfl (fun _ => rfl) (fun _ => rfl)

end Place2Dxf
